import Mathlib

/-!
# Verification of the stm32f4xx-hal GPIO binding layer and I2S constructor

Shallow embedding of `src/gpio/hal_1.rs` and `src/i2s.rs`.

The repository's inherent pin operations (`Pin::set_high`, the `DynamicPin`
guards, the `marker::Readable` capability marker, `SetAlternate::set_alt_mode`,
the `Clocks` frequency getters, `rcc::Enable`/`rcc::Reset`) live in files of
the repository that are not part of the provided sources; those are modelled
from the specification, each marked `Modelled from the spec:` in its doc
comment.  Everything else is translated directly from `hal_1.rs` / `i2s.rs`.
-/

namespace Stm32

/-- Output drive style of an output mode tag (`PushPull` / `OpenDrain`). -/
inductive OutputType where
  | pushPull
  | openDrain
deriving DecidableEq, Repr

/-- Compile-time mode tag of a typed pin: `Input`, `Output<Otype>`, `Analog`,
`Alternate<N>` (spec §3, "Mode Tag"). -/
inductive Mode where
  | input
  | output (t : OutputType)
  | analog
  | alternate (n : Nat)
deriving DecidableEq, Repr

/-- `true` exactly on the two output mode tags `Output<PushPull>` and
`Output<OpenDrain>`. -/
def Mode.isOutput : Mode → Bool
  | .output _ => true
  | _ => false

/-- Modelled from the spec: the capability marker `marker::Readable`
("this mode supports digital-read", spec §2.2); its impls are in `gpio.rs`,
not among the provided sources.  `Input` is readable, and the open-drain
output typestate also satisfies the read capability (claim sources of the
`IoPin<Self, Self>` impl for `Pin<P, N, Output<OpenDrain>>`). -/
def Mode.readable : Mode → Bool
  | .input => true
  | .output .openDrain => true
  | _ => false

/-- The logical level written to / read from a line.  `hal_1.rs` converts
between two structurally identical enums (`embedded_hal::PinState` and
`super::PinState`); both are modelled as this type, with `into_state` the
identity conversion below. -/
inductive PinState where
  | low
  | high
deriving DecidableEq, Repr

/-- `fn into_state(state: PinState) -> super::PinState` from `hal_1.rs`:
the variant-by-variant conversion between the embedded-hal pin state enum
and the crate's own (it maps `Low ↦ Low`, `High ↦ High`). -/
def into_state : PinState → PinState
  | .low => .low
  | .high => .high

/-- The hardware mode register setting of one line, as far as the claims
observe it: whether the line is configured as input, as an output (with its
drive style), as analog, or routed to an alternate function. -/
inductive HWMode where
  | input
  | output (t : OutputType)
  | analog
  | alternate (n : Nat)
deriving DecidableEq, Repr

/-- `true` exactly when the hardware mode register enables output drive. -/
def HWMode.drivesOutput : HWMode → Bool
  | .output _ => true
  | _ => false

/-- The hardware registers of one physical line: the mode register bits for
this line, the output-data register bit (the driven level) and the input-data
register bit (the electrically sampled level). -/
structure LineHW where
  moder : HWMode
  odr : Bool
  idr : Bool
deriving DecidableEq, Repr

/-- The whole GPIO register file: per (port index, line index) the line's
registers.  Port letters are modelled as their index (`'A'` = 0, …). -/
def GpioState := Nat → Nat → LineHW

/-- Update the registers of one addressed line, leaving every other line
untouched (spec §4.4: "Side effects are confined to the addressed line"). -/
def GpioState.update (s : GpioState) (p n : Nat) (f : LineHW → LineHW) : GpioState :=
  fun p' n' => if p' = p then (if n' = n then f (s p n) else s p' n') else s p' n'

theorem GpioState.update_same (s : GpioState) (p n : Nat) (f : LineHW → LineHW) :
    s.update p n f p n = f (s p n) := by
  simp [GpioState.update]

theorem GpioState.update_other (s : GpioState) (p n p' n' : Nat)
    (f : LineHW → LineHW) (h : ¬(p' = p ∧ n' = n)) :
    s.update p n f p' n' = s p' n' := by
  unfold GpioState.update
  by_cases hp : p' = p
  · by_cases hn : n' = n
    · exact absurd ⟨hp, hn⟩ h
    · simp [hp, hn]
  · simp [hp]

/-! ## Inherent line operations (modelled from the spec)

The bodies of `Pin::set_high` etc. are in `gpio.rs`, which is not among the
provided sources; `hal_1.rs` only delegates to them.  They are modelled from
the spec §4.1/§4.4: each is a single access to the addressed line's
output-state or input register. -/

/-- Modelled from the spec: the inherent `set_high` of a line (spec §4.1:
"mutate line output state"): sets the addressed line's output-data register
bit high.  Missing source: `Pin::set_high` in `gpio.rs`. -/
def lineSetHigh (p n : Nat) (s : GpioState) : GpioState :=
  s.update p n fun l => { l with odr := true }

/-- Modelled from the spec: the inherent `set_low` of a line: clears the
addressed line's output-data register bit.  Missing source: `Pin::set_low`
in `gpio.rs`. -/
def lineSetLow (p n : Nat) (s : GpioState) : GpioState :=
  s.update p n fun l => { l with odr := false }

/-- Modelled from the spec: the inherent `toggle` of a line: inverts the
addressed line's output-data register bit.  Missing source: `Pin::toggle`
in `gpio.rs`. -/
def lineToggle (p n : Nat) (s : GpioState) : GpioState :=
  s.update p n fun l => { l with odr := !l.odr }

/-- Modelled from the spec: the inherent `is_set_high` of a line (spec §4.1:
"read back the *driven* state"): reads the output-data register bit.
Missing source: `Pin::is_set_high` in `gpio.rs`. -/
def lineIsSetHigh (p n : Nat) (s : GpioState) : Bool :=
  (s p n).odr

/-- Modelled from the spec: the inherent `is_set_low` of a line.  Missing
source: `Pin::is_set_low` in `gpio.rs`. -/
def lineIsSetLow (p n : Nat) (s : GpioState) : Bool :=
  !(s p n).odr

/-- Modelled from the spec: the inherent `is_high` of a line (spec §4.1:
"read-only"): samples the input-data register bit.  Missing source:
`Pin::is_high` in `gpio.rs`. -/
def lineIsHigh (p n : Nat) (s : GpioState) : Bool :=
  (s p n).idr

/-- Modelled from the spec: the inherent `is_low` of a line.  Missing
source: `Pin::is_low` in `gpio.rs`. -/
def lineIsLow (p n : Nat) (s : GpioState) : Bool :=
  !(s p n).idr

/-! ## The four handle kinds

In Rust the port, line and mode of `Pin<P, N, MODE>` are type-level; the
shallow embedding carries them as fields of the handle value (they are the
data the const generics denote).  The erasure structure of the three other
kinds follows spec §3. -/

/-- `Pin<const P: char, const N: u8, MODE>`: the typed pin handle.  Identity
(port, line) and the mode tag are compile-time in Rust; here they are the
handle's fields. -/
structure Pin where
  port : Nat
  line : Nat
  mode : Mode
deriving DecidableEq, Repr

/-- `ErasedPin<MODE>`: keeps the mode classification, stores port and line
as two runtime integers (spec §3, "Fully-Erased Handle"). -/
structure ErasedPin where
  portByte : Nat
  lineByte : Nat
  mode : Mode
deriving DecidableEq, Repr

/-- `PartiallyErasedPin<const P: char, MODE>`: compile-time port, runtime
line byte (spec §3, "Partially-Erased Handle"). -/
structure PartiallyErasedPin where
  port : Nat
  lineByte : Nat
  mode : Mode
deriving DecidableEq, Repr

/-- Erasing a typed pin handle into the fully-erased form: the compile-time
port and line become the two runtime integers; the handle addresses the same
physical line (spec §3 invariant of the Fully-Erased Handle). -/
def Pin.erase (p : Pin) : ErasedPin :=
  ⟨p.port, p.line, p.mode⟩

/-- `core::convert::Infallible`: the uninhabited no-error marker used as
`type Error` by the `ErrorType` impls for `Pin`, `ErasedPin` and
`PartiallyErasedPin` in `hal_1.rs`. -/
inductive Infallible : Type

/-! ## The uniform digital-I/O contract for `Pin` (`hal_1.rs` lines 26–73)

Each trait method wraps the inherent operation in `Ok`.  A fallible
operation in the embedding returns its embedded-hal `Result` together with
the successor register state. -/

def Pin.set_high (h : Pin) (s : GpioState) : Except Infallible Unit × GpioState :=
  (.ok (), lineSetHigh h.port h.line s)

def Pin.set_low (h : Pin) (s : GpioState) : Except Infallible Unit × GpioState :=
  (.ok (), lineSetLow h.port h.line s)

def Pin.toggle (h : Pin) (s : GpioState) : Except Infallible Unit × GpioState :=
  (.ok (), lineToggle h.port h.line s)

def Pin.is_set_high (h : Pin) (s : GpioState) : Except Infallible Bool :=
  .ok (lineIsSetHigh h.port h.line s)

def Pin.is_set_low (h : Pin) (s : GpioState) : Except Infallible Bool :=
  .ok (lineIsSetLow h.port h.line s)

def Pin.is_high (h : Pin) (s : GpioState) : Except Infallible Bool :=
  .ok (lineIsHigh h.port h.line s)

def Pin.is_low (h : Pin) (s : GpioState) : Except Infallible Bool :=
  .ok (lineIsLow h.port h.line s)

/-! ## The same contract for `ErasedPin` (`hal_1.rs` lines 119–166):
the operations recompute the addressed line from the two runtime integers. -/

def ErasedPin.set_high (h : ErasedPin) (s : GpioState) :
    Except Infallible Unit × GpioState :=
  (.ok (), lineSetHigh h.portByte h.lineByte s)

def ErasedPin.set_low (h : ErasedPin) (s : GpioState) :
    Except Infallible Unit × GpioState :=
  (.ok (), lineSetLow h.portByte h.lineByte s)

def ErasedPin.toggle (h : ErasedPin) (s : GpioState) :
    Except Infallible Unit × GpioState :=
  (.ok (), lineToggle h.portByte h.lineByte s)

def ErasedPin.is_set_high (h : ErasedPin) (s : GpioState) : Except Infallible Bool :=
  .ok (lineIsSetHigh h.portByte h.lineByte s)

def ErasedPin.is_set_low (h : ErasedPin) (s : GpioState) : Except Infallible Bool :=
  .ok (lineIsSetLow h.portByte h.lineByte s)

def ErasedPin.is_high (h : ErasedPin) (s : GpioState) : Except Infallible Bool :=
  .ok (lineIsHigh h.portByte h.lineByte s)

def ErasedPin.is_low (h : ErasedPin) (s : GpioState) : Except Infallible Bool :=
  .ok (lineIsLow h.portByte h.lineByte s)

/-! ## The same contract for `PartiallyErasedPin` (`hal_1.rs` lines 173–220). -/

def PartiallyErasedPin.set_high (h : PartiallyErasedPin) (s : GpioState) :
    Except Infallible Unit × GpioState :=
  (.ok (), lineSetHigh h.port h.lineByte s)

def PartiallyErasedPin.set_low (h : PartiallyErasedPin) (s : GpioState) :
    Except Infallible Unit × GpioState :=
  (.ok (), lineSetLow h.port h.lineByte s)

def PartiallyErasedPin.toggle (h : PartiallyErasedPin) (s : GpioState) :
    Except Infallible Unit × GpioState :=
  (.ok (), lineToggle h.port h.lineByte s)

def PartiallyErasedPin.is_set_high (h : PartiallyErasedPin) (s : GpioState) :
    Except Infallible Bool :=
  .ok (lineIsSetHigh h.port h.lineByte s)

def PartiallyErasedPin.is_set_low (h : PartiallyErasedPin) (s : GpioState) :
    Except Infallible Bool :=
  .ok (lineIsSetLow h.port h.lineByte s)

def PartiallyErasedPin.is_high (h : PartiallyErasedPin) (s : GpioState) :
    Except Infallible Bool :=
  .ok (lineIsHigh h.port h.lineByte s)

def PartiallyErasedPin.is_low (h : PartiallyErasedPin) (s : GpioState) :
    Except Infallible Bool :=
  .ok (lineIsLow h.port h.lineByte s)

/-! ## The Dynamic Handle (`hal_1.rs` lines 223–243)

The trait impls for `DynamicPin` delegate to the inherent guarded methods in
`gpio/dynamic.rs`, which is not among the provided sources; the runtime mode
enum and the guards are modelled from spec §4.3. -/

/-- Modelled from the spec §4.3: the runtime-held mode of a Dynamic Handle.
"States: `Input`, `OutputPushPull`, `OutputOpenDrain`, `Analog`". Missing
source: the `Dynamic` enum in `gpio/dynamic.rs`. -/
inductive Dynamic where
  | input
  | outputPushPull
  | outputOpenDrain
  | analog
deriving DecidableEq, Repr

/-- `true` exactly in the two output states of the Dynamic Handle. -/
def Dynamic.isOutput : Dynamic → Bool
  | .outputPushPull => true
  | .outputOpenDrain => true
  | _ => false

/-- Modelled from the spec §4.3: the states with "a defined digital read
(input or either output sub-mode)". -/
def Dynamic.hasDigitalRead : Dynamic → Bool
  | .input => true
  | .outputPushPull => true
  | .outputOpenDrain => true
  | .analog => false

/-- `PinModeError`, the mode-mismatch error of the Dynamic Handle (declared
in `gpio/dynamic.rs`, used as `type Error` for `DynamicPin` in `hal_1.rs`
line 224). -/
inductive PinModeError where
  | incorrectMode
deriving DecidableEq, Repr

/-- `DynamicPin<const P: char, const N: u8>`: compile-time identity,
runtime-held mode (spec §3, "Dynamic Handle"). -/
structure DynamicPin where
  port : Nat
  line : Nat
  mode : Dynamic
deriving DecidableEq, Repr

/-- Modelled from the spec §4.3: `DynamicPin::set_high` (missing source
`gpio/dynamic.rs`): succeeds only in an output state; otherwise fails with
the mode-mismatch error and performs no hardware write. -/
def DynamicPin.set_high (h : DynamicPin) (s : GpioState) :
    Except PinModeError Unit × GpioState :=
  if h.mode.isOutput then (.ok (), lineSetHigh h.port h.line s)
  else (.error .incorrectMode, s)

/-- Modelled from the spec §4.3: `DynamicPin::set_low`: succeeds only in an
output state; otherwise mode-mismatch error and no hardware write. -/
def DynamicPin.set_low (h : DynamicPin) (s : GpioState) :
    Except PinModeError Unit × GpioState :=
  if h.mode.isOutput then (.ok (), lineSetLow h.port h.line s)
  else (.error .incorrectMode, s)

/-- Modelled from the spec §4.3: `DynamicPin::is_high`: succeeds only when
the current state has a defined digital read; otherwise the same error
kind. -/
def DynamicPin.is_high (h : DynamicPin) (s : GpioState) :
    Except PinModeError Bool :=
  if h.mode.hasDigitalRead then .ok (lineIsHigh h.port h.line s)
  else .error .incorrectMode

/-- Modelled from the spec §4.3: `DynamicPin::is_low`: succeeds only when
the current state has a defined digital read; otherwise the same error
kind. -/
def DynamicPin.is_low (h : DynamicPin) (s : GpioState) :
    Except PinModeError Bool :=
  if h.mode.hasDigitalRead then .ok (lineIsLow h.port h.line s)
  else .error .incorrectMode

/-! ## Operation availability per typestate (`hal_1.rs` impl headers)

Which uniform-contract operations the Rust compiler accepts for a typed pin
is determined by the trait impl headers of `hal_1.rs`: `OutputPin`,
`StatefulOutputPin` and `ToggleableOutputPin` are implemented only for
`Pin<P, N, Output<MODE>>` (lines 26, 40, 52), `InputPin` only for
`Pin<P, N, MODE> where MODE: marker::Readable` (lines 60–63).  A read on a
mode without the read capability, or a write on a non-output mode, has no
impl to resolve to and fails to compile. -/

/-- The seven operations of the uniform digital-I/O contract (spec §4.4). -/
inductive DigitalOp where
  | setHigh
  | setLow
  | toggle
  | isSetHigh
  | isSetLow
  | isHigh
  | isLow
deriving DecidableEq, Repr

/-- Whether the uniform-contract operation is provided (compiles) for a
typed pin whose mode tag is `m`, read off the impl headers of `hal_1.rs`. -/
def pinOpAvailable (m : Mode) : DigitalOp → Bool
  | .setHigh => m.isOutput
  | .setLow => m.isOutput
  | .toggle => m.isOutput
  | .isSetHigh => m.isOutput
  | .isSetLow => m.isOutput
  | .isHigh => m.readable
  | .isLow => m.readable

/-- `true` for the digital-read operations of the contract. -/
def DigitalOp.isRead : DigitalOp → Bool
  | .isHigh => true
  | .isLow => true
  | _ => false

/-- `true` for the write operations of the contract. -/
def DigitalOp.isWrite : DigitalOp → Bool
  | .setHigh => true
  | .setLow => true
  | .toggle => true
  | _ => false

/-! ## The mode-conversion bridge (`IoPin` impls, `hal_1.rs` lines 75–112)

The bridge operations are modelled together with the sequence of register
writes they perform, so that the glitch-freedom claim can be stated over
the intermediate hardware states. -/

/-- The level a `PinState` denotes, as the output-data register bit. -/
def PinState.toBool : PinState → Bool
  | .low => false
  | .high => true

/-- One register write, as recorded in the write history: either a write of
a level to a line's output-data register, or a reconfiguration of a line's
mode register. -/
inductive RegWrite where
  | odr (port line : Nat) (level : Bool)
  | moder (port line : Nat) (m : HWMode)
deriving DecidableEq, Repr

/-- The effect of one register write on the GPIO register file. -/
def RegWrite.apply : RegWrite → GpioState → GpioState
  | .odr p n lvl, s => s.update p n fun l => { l with odr := lvl }
  | .moder p n m, s => s.update p n fun l => { l with moder := m }

/-- Run a write sequence left to right. -/
def runWrites (ws : List RegWrite) (s : GpioState) : GpioState :=
  ws.foldl (fun s w => w.apply s) s

/-- All intermediate register files of a write sequence, the starting state
included (the observable history of the line during the sequence). -/
def statesAlong (ws : List RegWrite) (s : GpioState) : List GpioState :=
  match ws with
  | [] => [s]
  | w :: rest => s :: statesAlong rest (w.apply s)

/-- Modelled from the spec: `Pin::_set_state` (missing source `gpio.rs`,
called by the `IoPin` impl for `Pin<P, N, Input>` at `hal_1.rs` line 109):
a single write of the given level to the addressed line's output-level
register, touching no other register. -/
def Pin.raw_set_state_writes (h : Pin) (lvl : PinState) : List RegWrite :=
  [.odr h.port h.line lvl.toBool]

/-- Modelled from the spec: `Pin::set_state` (missing source `gpio.rs`,
called by the open-drain `IoPin` impl at `hal_1.rs` line 81): dispatches to
`set_high`/`set_low`, i.e. a single write of the level to the addressed
line's output-level register. -/
def Pin.set_state_writes (h : Pin) (lvl : PinState) : List RegWrite :=
  [.odr h.port h.line lvl.toBool]

/-- Modelled from the spec §4.1: `Pin::into_mode::<Output<Otype>>` (missing
source `gpio.rs`, called at `hal_1.rs` line 110): reconfigures the line's
hardware mode register to the target mode — the write that enables output
drive — and touches no other register. -/
def Pin.into_mode_writes (h : Pin) (t : OutputType) : List RegWrite :=
  [.moder h.port h.line (.output t)]

/-- `into_output_pin` of the `IoPin` impl for `Pin<P, N, Input>` (`hal_1.rs`
lines 108–111): `self._set_state(into_state(state));
Ok(self.into_mode())` — the register-write history it performs, in
program order. -/
def Pin.into_output_pin_writes (h : Pin) (t : OutputType) (state : PinState) :
    List RegWrite :=
  h.raw_set_state_writes (into_state state) ++ h.into_mode_writes t

/-- `into_output_pin` of the `IoPin` impl for `Pin<P, N, Input>`: the
returned handle, the final register file and the write history. -/
def Pin.into_output_pin (h : Pin) (t : OutputType) (state : PinState) (s : GpioState) :
    Except Infallible Pin × GpioState × List RegWrite :=
  (.ok { h with mode := .output t },
   runWrites (h.into_output_pin_writes t state) s,
   h.into_output_pin_writes t state)

/-- `into_input_pin` of the `IoPin` impl for `Pin<P, N, Input>` (`hal_1.rs`
lines 105–107): `Ok(self)` — no register access. -/
def Pin.input_into_input_pin (h : Pin) (s : GpioState) :
    Except Infallible Pin × GpioState × List RegWrite :=
  (.ok h, s, [])

/-- `into_input_pin` of the `IoPin<Self, Self>` impl for
`Pin<P, N, Output<OpenDrain>>` (`hal_1.rs` lines 77–79): `Ok(self)` — the
handle is returned unchanged and no register is accessed. -/
def Pin.od_into_input_pin (h : Pin) (s : GpioState) :
    Except Infallible Pin × GpioState × List RegWrite :=
  (.ok h, s, [])

/-- `into_output_pin` of the `IoPin<Self, Self>` impl for
`Pin<P, N, Output<OpenDrain>>` (`hal_1.rs` lines 80–83):
`self.set_state(into_state(state)); Ok(self)` — re-writes the driven level
only; mode register and handle type are untouched. -/
def Pin.od_into_output_pin (h : Pin) (state : PinState) (s : GpioState) :
    Except Infallible Pin × GpioState × List RegWrite :=
  (.ok h,
   runWrites (h.set_state_writes (into_state state)) s,
   h.set_state_writes (into_state state))

/-- Whether the line observably drives the level `lvl` in register file `s`:
its mode register enables output drive and its output-data register holds
`lvl`. -/
def drivesLevel (s : GpioState) (p n : Nat) (lvl : Bool) : Bool :=
  (s p n).moder.drivesOutput && ((s p n).odr == lvl)

end Stm32

/-! ## The I2S constructor (`src/i2s.rs`) -/

namespace Stm32.I2sModel

/-- `crate::time::Hertz`: a frequency in hertz (declared in `time.rs`,
outside the provided sources; only its value matters here). -/
structure Hertz where
  raw : Nat
deriving DecidableEq, Repr

/-- Modelled from the spec / `i2s.rs` lines 64–73: the `Clocks` value with
its I2S clock-input frequency getter for the chosen SPI peripheral
(`i2s_clk` / `i2s_apb1_clk` / `i2s_apb2_clk` in `rcc`, outside the provided
sources): the getter returns `none` when the I2S clock input is not
configured. -/
structure Clocks where
  i2sClockInput : Option Hertz
deriving DecidableEq, Repr

/-- The `$clock()` getter the `i2s!` macro selects on `Clocks`. -/
def Clocks.i2s_clock_input (c : Clocks) : Option Hertz :=
  c.i2sClockInput

/-- `I2sFreq::i2s_freq` as generated by the `i2s!` macro (`i2s.rs` lines
68–74): `clocks.$clock().expect("I2S clock input for SPI not enabled")`.
The `expect` panic is modelled as `none`. -/
def i2s_freq (clocks : Clocks) : Option Hertz :=
  clocks.i2s_clock_input

/-- The electrical routing of one of the four supplied pins, as far as the
I2S constructor changes it: either whatever mode it arrived in, or committed
to its alternate-function multiplexer setting. -/
inductive PinRouting where
  | initial
  | alternateFn (a : Nat)
deriving DecidableEq, Repr

/-- One of the four pins handed to `I2s::new`: `A = Const<ALT>` is its
multiplexer setting from the `PinA` capability relation, `routing` its
current electrical routing. -/
structure I2sPin where
  alt : Nat
  routing : PinRouting
deriving DecidableEq, Repr

/-- Modelled from the spec §6: `SetAlternate::set_alt_mode` (in `gpio/alt.rs`,
outside the provided sources): "switches its electrical routing to the
requested multiplexer setting", i.e. to alternate function `alt`. -/
def I2sPin.set_alt_mode (p : I2sPin) : I2sPin :=
  { p with routing := .alternateFn p.alt }

/-- The SPI peripheral's RCC state as `I2s::new` changes it.  Modelled from
the spec / `i2s.rs` lines 105–111: `SPI::enable` (in `rcc`, outside the
provided sources) enables the peripheral clock, `SPI::reset` pulses its
reset. -/
structure RccState where
  spiClockEnabled : Bool
  spiResetPulsed : Bool
deriving DecidableEq, Repr

/-- `SPI::enable(rcc)`: enables the SPI peripheral's clock.  Modelled from
the spec (missing source `rcc/mod.rs`). -/
def RccState.enableSpi (r : RccState) : RccState :=
  { r with spiClockEnabled := true }

/-- `SPI::reset(rcc)`: pulses the SPI peripheral's reset.  Modelled from
the spec (missing source `rcc/mod.rs`). -/
def RccState.resetSpi (r : RccState) : RccState :=
  { r with spiResetPulsed := true }

/-- `struct I2s<I, PINS>` (`i2s.rs` lines 191–196): the SPI object, the
pins and the sampled input clock frequency. -/
structure I2s where
  pins : I2sPin × I2sPin × I2sPin × I2sPin
  input_clock : Hertz
deriving DecidableEq, Repr

/-- `I2s::input_clock` (`i2s.rs` lines 201–203): returns the stored
`input_clock` field. -/
def I2s.input_clock_value (i : I2s) : Hertz :=
  i.input_clock

/-- `I2s::new` (`i2s.rs` lines 103–123): samples the input clock via
`SPI::i2s_freq(clocks)` (panicking — here `none` — when the I2S clock input
is not configured), enables and resets the SPI peripheral's clock, switches
all four pins (WS, CK, MCLK, SD) to their alternate-function multiplexer
settings, and returns the `I2s` value holding the committed pins. -/
def I2s.new (pins : I2sPin × I2sPin × I2sPin × I2sPin) (clocks : Clocks)
    (rcc : RccState) : Option (I2s × RccState) :=
  match i2s_freq clocks with
  | none => none
  | some input_clock =>
    let rcc := rcc.enableSpi
    let rcc := rcc.resetSpi
    let pins := (pins.1.set_alt_mode, pins.2.1.set_alt_mode,
                 pins.2.2.1.set_alt_mode, pins.2.2.2.set_alt_mode)
    some ({ pins := pins, input_clock := input_clock }, rcc)

end Stm32.I2sModel

/-! ## Theorems -/

namespace Stm32

/-- Any result of the no-error marker's error channel is success: the error
type is uninhabited. -/
theorem except_infallible_isOk {α : Type} (x : Except Infallible α) : x.isOk = true := by
  cases x with
  | error e => cases e
  | ok a => rfl

/-- A concrete reset-state register file: every line an input, driving low,
sampling low. -/
def testState : GpioState :=
  fun _ _ => { moder := .input, odr := false, idr := false }

/-- C1: for every physical line and every operation of the uniform
digital-I/O contract, the operation performed through the typed pin handle
and through the fully-erased handle obtained by erasing that same handle
produce identical hardware effects and identical return values. -/
theorem erasure_equivalence (h : Pin) (s : GpioState) :
    h.set_high s = h.erase.set_high s ∧
    h.set_low s = h.erase.set_low s ∧
    h.toggle s = h.erase.toggle s ∧
    h.is_set_high s = h.erase.is_set_high s ∧
    h.is_set_low s = h.erase.is_set_low s ∧
    h.is_high s = h.erase.is_high s ∧
    h.is_low s = h.erase.is_low s :=
  ⟨rfl, rfl, rfl, rfl, rfl, rfl, rfl⟩

/-- C2: a Dynamic Handle whose runtime-tracked mode is not an output state
fails `set_high`/`set_low` with the mode-mismatch error and leaves the
register file untouched; in an output state both succeed. -/
theorem dynamic_write_guard (h : DynamicPin) (s : GpioState) :
    (h.mode.isOutput = false →
      h.set_high s = (.error .incorrectMode, s) ∧
      h.set_low s = (.error .incorrectMode, s)) ∧
    (h.mode.isOutput = true →
      (h.set_high s).1 = .ok () ∧ (h.set_low s).1 = .ok ()) := by
  constructor <;> intro hm <;>
    simp [DynamicPin.set_high, DynamicPin.set_low, hm]

/-- Witness for C2 at a concrete input-state handle and a concrete
output-state handle. -/
theorem dynamic_write_guard_witness :
    (DynamicPin.set_high ⟨0, 0, .input⟩ testState =
      (.error .incorrectMode, testState) ∧
     DynamicPin.set_low ⟨0, 0, .input⟩ testState =
      (.error .incorrectMode, testState)) ∧
    ((DynamicPin.set_high ⟨0, 0, .outputPushPull⟩ testState).1 = .ok () ∧
     (DynamicPin.set_low ⟨0, 0, .outputPushPull⟩ testState).1 = .ok ()) :=
  ⟨(dynamic_write_guard ⟨0, 0, .input⟩ testState).1 rfl,
   (dynamic_write_guard ⟨0, 0, .outputPushPull⟩ testState).2 rfl⟩

/-- C3: for the typed, fully-erased and partially-erased handle kinds, every
operation of the uniform contract always returns the success variant, and
the declared error channel (`Infallible`) is uninhabited. -/
theorem infallible_handles_never_fail (h : Pin) (he : ErasedPin)
    (hp : PartiallyErasedPin) (s : GpioState) :
    (∀ _e : Infallible, False) ∧
    ((h.set_high s).1.isOk = true ∧ (h.set_low s).1.isOk = true ∧
     (h.toggle s).1.isOk = true ∧ (h.is_set_high s).isOk = true ∧
     (h.is_set_low s).isOk = true ∧ (h.is_high s).isOk = true ∧
     (h.is_low s).isOk = true) ∧
    ((he.set_high s).1.isOk = true ∧ (he.set_low s).1.isOk = true ∧
     (he.toggle s).1.isOk = true ∧ (he.is_set_high s).isOk = true ∧
     (he.is_set_low s).isOk = true ∧ (he.is_high s).isOk = true ∧
     (he.is_low s).isOk = true) ∧
    ((hp.set_high s).1.isOk = true ∧ (hp.set_low s).1.isOk = true ∧
     (hp.toggle s).1.isOk = true ∧ (hp.is_set_high s).isOk = true ∧
     (hp.is_set_low s).isOk = true ∧ (hp.is_high s).isOk = true ∧
     (hp.is_low s).isOk = true) :=
  by
  refine ⟨?_, ?_, ?_, ?_⟩
  · intro e
    cases e
  · exact ⟨rfl, rfl, rfl, rfl, rfl, rfl, rfl⟩
  · exact ⟨rfl, rfl, rfl, rfl, rfl, rfl, rfl⟩
  · exact ⟨rfl, rfl, rfl, rfl, rfl, rfl, rfl⟩

/-- C5: a Dynamic Handle's `is_high`/`is_low` succeed exactly when the
runtime-tracked mode has a defined digital read; otherwise both fail with
the same mode-mismatch error kind used by the write guard. -/
theorem dynamic_read_guard (h : DynamicPin) (s : GpioState) :
    ((h.is_high s).isOk = h.mode.hasDigitalRead) ∧
    ((h.is_low s).isOk = h.mode.hasDigitalRead) ∧
    (h.mode.hasDigitalRead = false →
      h.is_high s = .error PinModeError.incorrectMode ∧
      h.is_low s = .error PinModeError.incorrectMode) := by
  refine ⟨?_, ?_, fun hm => ?_⟩ <;>
    cases hr : h.mode.hasDigitalRead <;>
      simp_all [DynamicPin.is_high, DynamicPin.is_low, Except.isOk, Except.toBool]

/-- Witness for C5 at a concrete analog-state handle (no digital read) and
a concrete input-state handle. -/
theorem dynamic_read_guard_witness :
    (DynamicPin.is_high ⟨0, 1, .analog⟩ testState =
      .error PinModeError.incorrectMode ∧
     DynamicPin.is_low ⟨0, 1, .analog⟩ testState =
      .error PinModeError.incorrectMode) ∧
    (DynamicPin.is_high ⟨0, 1, .input⟩ testState).isOk = true :=
  ⟨(dynamic_read_guard ⟨0, 1, .analog⟩ testState).2.2 rfl,
   (dynamic_read_guard ⟨0, 1, .input⟩ testState).1⟩

/-- C7: for a typed pin handle the digital-read operations are provided
exactly for mode tags with the read capability and the write operations
exactly for output mode tags; on a mode without the capability the
operation is not provided (does not compile). -/
theorem typestate_exclusion (m : Mode) :
    (pinOpAvailable m .isHigh = m.readable) ∧
    (pinOpAvailable m .isLow = m.readable) ∧
    (pinOpAvailable m .setHigh = m.isOutput) ∧
    (pinOpAvailable m .setLow = m.isOutput) ∧
    (pinOpAvailable m .toggle = m.isOutput) ∧
    (pinOpAvailable m .isSetHigh = m.isOutput) ∧
    (pinOpAvailable m .isSetLow = m.isOutput) ∧
    (m.readable = false →
      pinOpAvailable m .isHigh = false ∧ pinOpAvailable m .isLow = false) ∧
    (m.isOutput = false →
      pinOpAvailable m .setHigh = false ∧ pinOpAvailable m .setLow = false ∧
      pinOpAvailable m .toggle = false) := by
  refine ⟨rfl, rfl, rfl, rfl, rfl, rfl, rfl,
    fun hr => ⟨?_, ?_⟩, fun ho => ⟨?_, ?_, ?_⟩⟩ <;>
    simp [pinOpAvailable, *]

/-- Witness for C7 at the analog mode tag, which has neither the read
capability nor output capability. -/
theorem typestate_exclusion_witness :
    (pinOpAvailable .analog .isHigh = false ∧
     pinOpAvailable .analog .isLow = false) ∧
    (pinOpAvailable .analog .setHigh = false ∧
     pinOpAvailable .analog .setLow = false ∧
     pinOpAvailable .analog .toggle = false) :=
  ⟨(typestate_exclusion .analog).2.2.2.2.2.2.2.1 rfl,
   (typestate_exclusion .analog).2.2.2.2.2.2.2.2 rfl⟩

/-- C4: converting an input-mode typed handle to output writes the
requested level to the output-level register strictly before the mode
write that enables output drive, and at no intermediate register file along
the conversion does the line drive the opposite level. -/
theorem glitch_free_into_output (h : Pin) (t : OutputType) (lvl : PinState)
    (s : GpioState) (hin : (s h.port h.line).moder = .input) :
    (statesAlong (h.into_output_pin_writes t lvl) s).all
      (fun s' => !(drivesLevel s' h.port h.line (!lvl.toBool))) = true ∧
    h.into_output_pin_writes t lvl =
      [.odr h.port h.line lvl.toBool, .moder h.port h.line (.output t)] := by
  cases lvl <;>
    simp [Pin.into_output_pin_writes, Pin.raw_set_state_writes,
      Pin.into_mode_writes, into_state, PinState.toBool, statesAlong,
      RegWrite.apply, drivesLevel, GpioState.update_same, hin,
      HWMode.drivesOutput]

/-- Witness for C4: line A5 in reset-state input mode, converted to
push-pull output with requested level high. -/
theorem glitch_free_into_output_witness :
    ((testState 0 5).moder = .input) ∧
    ((statesAlong (Pin.into_output_pin_writes ⟨0, 5, .input⟩ .pushPull .high)
        testState).all
      (fun s' => !(drivesLevel s' 0 5 (!PinState.high.toBool))) = true ∧
     Pin.into_output_pin_writes ⟨0, 5, .input⟩ .pushPull .high =
      [.odr 0 5 PinState.high.toBool, .moder 0 5 (.output .pushPull)]) :=
  ⟨rfl, glitch_free_into_output ⟨0, 5, .input⟩ .pushPull .high testState rfl⟩

/-- C6: on every output-capable handle of the three infallible kinds,
`set_high` then `is_set_high` reads back `true`, `set_low` then `is_set_low`
reads back `true`, and two `toggle`s restore the line's driven state. -/
theorem output_readback_roundtrip (h : Pin) (he : ErasedPin)
    (hp : PartiallyErasedPin) (s : GpioState)
    (_hm : h.mode.isOutput = true) (_hme : he.mode.isOutput = true)
    (_hmp : hp.mode.isOutput = true) :
    (Pin.is_set_high h (h.set_high s).2 = .ok true ∧
     Pin.is_set_low h (h.set_low s).2 = .ok true ∧
     Pin.is_set_high h (h.toggle (h.toggle s).2).2 = Pin.is_set_high h s) ∧
    (ErasedPin.is_set_high he (he.set_high s).2 = .ok true ∧
     ErasedPin.is_set_low he (he.set_low s).2 = .ok true ∧
     ErasedPin.is_set_high he (he.toggle (he.toggle s).2).2 =
       ErasedPin.is_set_high he s) ∧
    (PartiallyErasedPin.is_set_high hp (hp.set_high s).2 = .ok true ∧
     PartiallyErasedPin.is_set_low hp (hp.set_low s).2 = .ok true ∧
     PartiallyErasedPin.is_set_high hp (hp.toggle (hp.toggle s).2).2 =
       PartiallyErasedPin.is_set_high hp s) := by
  refine ⟨⟨?_, ?_, ?_⟩, ⟨?_, ?_, ?_⟩, ⟨?_, ?_, ?_⟩⟩ <;>
    simp [Pin.is_set_high, Pin.is_set_low, Pin.set_high, Pin.set_low,
      Pin.toggle, ErasedPin.is_set_high, ErasedPin.is_set_low,
      ErasedPin.set_high, ErasedPin.set_low, ErasedPin.toggle,
      PartiallyErasedPin.is_set_high, PartiallyErasedPin.is_set_low,
      PartiallyErasedPin.set_high, PartiallyErasedPin.set_low,
      PartiallyErasedPin.toggle, lineSetHigh, lineSetLow, lineToggle,
      lineIsSetHigh, lineIsSetLow, GpioState.update_same]

/-- Witness for C6 on concrete push-pull output handles of all three
kinds. -/
theorem output_readback_roundtrip_witness :
    (Pin.mode ⟨0, 1, .output .pushPull⟩).isOutput = true ∧
    (Pin.is_set_high ⟨0, 1, .output .pushPull⟩
        (Pin.set_high ⟨0, 1, .output .pushPull⟩ testState).2 = .ok true ∧
     Pin.is_set_low ⟨0, 1, .output .pushPull⟩
        (Pin.set_low ⟨0, 1, .output .pushPull⟩ testState).2 = .ok true ∧
     Pin.is_set_high ⟨0, 1, .output .pushPull⟩
        (Pin.toggle ⟨0, 1, .output .pushPull⟩
          (Pin.toggle ⟨0, 1, .output .pushPull⟩ testState).2).2 =
       Pin.is_set_high ⟨0, 1, .output .pushPull⟩ testState) :=
  ⟨rfl,
   (output_readback_roundtrip ⟨0, 1, .output .pushPull⟩
      ⟨1, 2, .output .pushPull⟩ ⟨2, 3, .output .pushPull⟩ testState
      rfl rfl rfl).1⟩

/-- C9: for an open-drain output pin the `IoPin` conversion to input is the
identity — same handle, untouched register file, empty write history — and
the conversion back to output re-writes only the driven level; the
open-drain output typestate itself satisfies the read capability. -/
theorem open_drain_bridge_identity (h : Pin) (s : GpioState) (lvl : PinState) :
    h.od_into_input_pin s = (.ok h, s, []) ∧
    h.od_into_output_pin lvl s =
      (.ok h, runWrites [.odr h.port h.line lvl.toBool] s,
       [.odr h.port h.line lvl.toBool]) ∧
    Mode.readable (.output .openDrain) = true := by
  refine ⟨rfl, ?_, rfl⟩
  cases lvl <;> rfl

end Stm32

namespace Stm32.I2sModel

/-- C8: whenever `I2s::new` returns (rather than panicking), all four
supplied pins have been switched to their alternate-function multiplexer
settings, the SPI peripheral's clock has been enabled and reset, and the
returned value holds exactly the committed pins. -/
theorem i2s_new_commits_pins (pins : I2sPin × I2sPin × I2sPin × I2sPin)
    (clocks : Clocks) (rcc : RccState) (i2s : I2s) (rccAfter : RccState)
    (hnew : I2s.new pins clocks rcc = some (i2s, rccAfter)) :
    i2s.pins.1.routing = .alternateFn pins.1.alt ∧
    i2s.pins.2.1.routing = .alternateFn pins.2.1.alt ∧
    i2s.pins.2.2.1.routing = .alternateFn pins.2.2.1.alt ∧
    i2s.pins.2.2.2.routing = .alternateFn pins.2.2.2.alt ∧
    rccAfter.spiClockEnabled = true ∧ rccAfter.spiResetPulsed = true ∧
    i2s.pins = (pins.1.set_alt_mode, pins.2.1.set_alt_mode,
                pins.2.2.1.set_alt_mode, pins.2.2.2.set_alt_mode) := by
  cases hc : i2s_freq clocks with
  | none => simp [I2s.new, hc] at hnew
  | some f =>
    simp only [I2s.new, hc, Option.some.injEq, Prod.mk.injEq] at hnew
    obtain ⟨hi, hr⟩ := hnew
    subst hi
    subst hr
    simp [I2sPin.set_alt_mode, RccState.enableSpi, RccState.resetSpi]

/-- Witness for C8 at concrete pins, clocks and RCC state. -/
theorem i2s_new_commits_pins_witness :
    I2s.new (⟨5, .initial⟩, ⟨5, .initial⟩, ⟨6, .initial⟩, ⟨5, .initial⟩)
        ⟨some ⟨48000000⟩⟩ ⟨false, false⟩ =
      some ({ pins := (⟨5, .alternateFn 5⟩, ⟨5, .alternateFn 5⟩,
                       ⟨6, .alternateFn 6⟩, ⟨5, .alternateFn 5⟩),
              input_clock := ⟨48000000⟩ }, ⟨true, true⟩) ∧
    ({ pins := (⟨5, .alternateFn 5⟩, ⟨5, .alternateFn 5⟩,
                ⟨6, .alternateFn 6⟩, ⟨5, .alternateFn 5⟩),
       input_clock := ⟨48000000⟩ } : I2s).pins.1.routing = .alternateFn 5 ∧
    (⟨true, true⟩ : RccState).spiClockEnabled = true :=
  ⟨rfl,
   (i2s_new_commits_pins
      (⟨5, .initial⟩, ⟨5, .initial⟩, ⟨6, .initial⟩, ⟨5, .initial⟩)
      ⟨some ⟨48000000⟩⟩ ⟨false, false⟩ _ _ rfl).1,
   (i2s_new_commits_pins
      (⟨5, .initial⟩, ⟨5, .initial⟩, ⟨6, .initial⟩, ⟨5, .initial⟩)
      ⟨some ⟨48000000⟩⟩ ⟨false, false⟩ _ _ rfl).2.2.2.2.1⟩

/-- C10: `I2s::new` panics exactly when the clock structure's I2S
clock-input getter returns no value; on success the stored `input_clock`
is exactly the frequency the getter reported at construction. -/
theorem i2s_new_panic_iff (pins : I2sPin × I2sPin × I2sPin × I2sPin)
    (clocks : Clocks) (rcc : RccState) :
    (I2s.new pins clocks rcc = none ↔ clocks.i2s_clock_input = none) ∧
    (∀ i2s rccAfter, I2s.new pins clocks rcc = some (i2s, rccAfter) →
      clocks.i2s_clock_input = some i2s.input_clock_value) := by
  cases hc : clocks.i2s_clock_input with
  | none =>
    refine ⟨by simp [I2s.new, i2s_freq, hc], fun i2s rccAfter hnew => ?_⟩
    simp [I2s.new, i2s_freq, hc] at hnew
  | some f =>
    refine ⟨by simp [I2s.new, i2s_freq, hc], fun i2s rccAfter hnew => ?_⟩
    simp only [I2s.new, i2s_freq, hc, Option.some.injEq, Prod.mk.injEq] at hnew
    obtain ⟨hi, hr⟩ := hnew
    subst hi
    simp [I2s.input_clock_value]

/-- Witness for C10: a clock structure with the I2S input unset makes the
constructor panic; one with the input at 48 MHz stores exactly 48 MHz. -/
theorem i2s_new_panic_iff_witness :
    I2s.new (⟨5, .initial⟩, ⟨5, .initial⟩, ⟨6, .initial⟩, ⟨5, .initial⟩)
        ⟨none⟩ ⟨false, false⟩ = none ∧
    Clocks.i2s_clock_input ⟨some ⟨48000000⟩⟩ =
      some (I2s.input_clock_value
        { pins := (⟨5, .alternateFn 5⟩, ⟨5, .alternateFn 5⟩,
                   ⟨6, .alternateFn 6⟩, ⟨5, .alternateFn 5⟩),
          input_clock := ⟨48000000⟩ }) :=
  ⟨(i2s_new_panic_iff
      (⟨5, .initial⟩, ⟨5, .initial⟩, ⟨6, .initial⟩, ⟨5, .initial⟩)
      ⟨none⟩ ⟨false, false⟩).1.mpr rfl,
   (i2s_new_panic_iff
      (⟨5, .initial⟩, ⟨5, .initial⟩, ⟨6, .initial⟩, ⟨5, .initial⟩)
      ⟨some ⟨48000000⟩⟩ ⟨false, false⟩).2 _ _ rfl⟩

end Stm32.I2sModel
